import Mathlib

/-!
Verification of the pcap2socks layered packet model and ARP relay engine.

The relay loop (`proxy`), `interfaces` and `interface` are translated from
`src/lib.rs`.  The `pcap` layer module (`Arp`, `Ethernet`, `Indicator`,
`Interface`) is not present under `src/`, so those definitions are modelled
from the specification (sections 3, 4.1 and 4.2).

Machine integers are modelled as `Nat`; a byte field carries the invariant
`< 256` via the `Valid` predicates where serialization round-trips need it.
-/

/-- Modelled from the spec: a 6-byte hardware (MAC) address; the pcap module
holding the concrete type is not under `src/`. Each field is one byte. -/
structure MacAddr where
  b0 : Nat
  b1 : Nat
  b2 : Nat
  b3 : Nat
  b4 : Nat
  b5 : Nat
deriving DecidableEq, Repr, Inhabited

/-- Modelled from the spec: a 4-byte IPv4 protocol address. -/
structure Ipv4Addr where
  o0 : Nat
  o1 : Nat
  o2 : Nat
  o3 : Nat
deriving DecidableEq, Repr

/-- Modelled from the spec: the closed set of layer-type discriminants
(`layer::LayerTypes` in the source). -/
inductive LayerTypes where
  | ethernet
  | arp
  | ipv4
deriving DecidableEq, Repr

/-- Modelled from the spec: ARP operation, request or reply. -/
inductive ArpOperation where
  | request
  | reply
deriving DecidableEq, Repr

/-- Wire value of an ARP operation (request = 1, reply = 2). -/
def ArpOperation.value : ArpOperation → Nat
  | .request => 1
  | .reply => 2

/-- Modelled from the spec (§3, §4.1): the ARP layer. The hardware/protocol
type and length fields are fixed for Ethernet/IPv4 use and are emitted as
constants by serialization. -/
structure Arp where
  operation : ArpOperation
  src_hardware_addr : MacAddr
  src_protocol_addr : Ipv4Addr
  dst_hardware_addr : MacAddr
  dst_protocol_addr : Ipv4Addr
deriving DecidableEq, Repr

/-- Modelled from the spec (§3): the Ethernet layer: destination MAC, source
MAC, encapsulated-protocol tag (a 16-bit EtherType value). -/
structure Ethernet where
  dst : MacAddr
  src : MacAddr
  ethertype : Nat
deriving DecidableEq, Repr

/-- EtherType wire value of a layer type (ARP = 0x0806, IPv4 = 0x0800). -/
def LayerTypes.etherValue : LayerTypes → Nat
  | .ethernet => 0
  | .arp => 0x0806
  | .ipv4 => 0x0800

/-- Modelled from the spec (§3): an IPv4 layer is only classified, never
deeply parsed; it is carried as its raw bytes. -/
structure Ipv4 where
  bytes : List Nat
deriving DecidableEq, Repr

/-- Modelled from the spec: the tagged union of protocol layers
(`layer::Layers` in the source). -/
inductive Layers where
  | ethernet (e : Ethernet)
  | arp (a : Arp)
  | ipv4 (p : Ipv4)
deriving DecidableEq, Repr

/-- Layer-type discriminant of a layer, usable for dispatch. -/
def Layers.layerType : Layers → LayerTypes
  | .ethernet _ => .ethernet
  | .arp _ => .arp
  | .ipv4 _ => .ipv4

/-- Modelled from the spec (§4.1): `Arp::is_request_of(sender_ip, target_ip)`
is true iff operation == request, sender protocol address == `sender_ip`, and
target protocol address == `target_ip`. -/
def Arp.is_request_of (a : Arp) (sender_ip target_ip : Ipv4Addr) : Bool :=
  a.operation = ArpOperation.request
    && a.src_protocol_addr = sender_ip
    && a.dst_protocol_addr = target_ip

/-- Modelled from the spec (§4.1): `Arp::reply(replying_hardware_addr)` builds
a new ARP layer with operation = reply, sender hardware/protocol addresses
(`replying_hardware_addr`, original target protocol address), target
hardware/protocol addresses (original sender hardware address, original sender
protocol address). -/
def Arp.reply (a : Arp) (replying_hardware_addr : MacAddr) : Arp where
  operation := .reply
  src_hardware_addr := replying_hardware_addr
  src_protocol_addr := a.dst_protocol_addr
  dst_hardware_addr := a.src_hardware_addr
  dst_protocol_addr := a.src_protocol_addr

/-- Layer-type tag of an ARP layer (`get_type` in the source). -/
def Arp.get_type (_ : Arp) : LayerTypes := .arp

/-- Sender hardware address accessor (`get_src_hardware_addr`). -/
def Arp.get_src_hardware_addr (a : Arp) : MacAddr := a.src_hardware_addr

/-- Target hardware address accessor (`get_dst_hardware_addr`). -/
def Arp.get_dst_hardware_addr (a : Arp) : MacAddr := a.dst_hardware_addr

/-- Modelled from the spec (§4.1): variant constructor for the Ethernet layer,
`Ethernet::new(t, src, dst)`; with typed addresses the field-width validation
always succeeds, so the result is always `some`. -/
def Ethernet.new (t : LayerTypes) (src dst : MacAddr) : Option Ethernet :=
  some { dst := dst, src := src, ethertype := t.etherValue }

/-- Serialized bytes of a MAC address (six bytes, masked to byte width). -/
def MacAddr.serializeBytes (m : MacAddr) : List Nat :=
  [m.b0 % 256, m.b1 % 256, m.b2 % 256, m.b3 % 256, m.b4 % 256, m.b5 % 256]

/-- Serialized bytes of an IPv4 address (four octets, masked to byte width). -/
def Ipv4Addr.serializeBytes (ip : Ipv4Addr) : List Nat :=
  [ip.o0 % 256, ip.o1 % 256, ip.o2 % 256, ip.o3 % 256]

/-- Big-endian two-byte serialization of a 16-bit value. -/
def serialize16 (v : Nat) : List Nat :=
  [v / 256 % 256, v % 256]

/-- Modelled from the spec (§4.1): wire form of the Ethernet layer —
destination MAC, source MAC, EtherType (14 bytes). -/
def Ethernet.serializeBytes (e : Ethernet) : List Nat :=
  e.dst.serializeBytes ++ e.src.serializeBytes ++ serialize16 e.ethertype

/-- Modelled from the spec (§3, §4.1): wire form of the ARP layer — hardware
type (1 = Ethernet), protocol type (0x0800 = IPv4), address lengths (6, 4),
operation, then sender and target hardware/protocol addresses (28 bytes). -/
def Arp.serializeBytes (a : Arp) : List Nat :=
  serialize16 1 ++ serialize16 0x0800 ++ [6, 4] ++ serialize16 a.operation.value
    ++ a.src_hardware_addr.serializeBytes ++ a.src_protocol_addr.serializeBytes
    ++ a.dst_hardware_addr.serializeBytes ++ a.dst_protocol_addr.serializeBytes

/-- Wire form of a layer. -/
def Layers.serializeBytes : Layers → List Nat
  | .ethernet e => e.serializeBytes
  | .arp a => a.serializeBytes
  | .ipv4 p => p.bytes

/-- Exact wire length of a layer (`size()` in the source contract). -/
def Layers.size : Layers → Nat
  | .ethernet _ => 14
  | .arp _ => 28
  | .ipv4 p => p.bytes.length

/-- Modelled from the spec (§3, §4.2): an `Indicator` is an ordered,
optional-at-each-slot stack of link, network and transport layers. -/
structure Indicator where
  link : Layers
  network : Option Layers
  transport : Option Layers
deriving DecidableEq, Repr

/-- `Indicator::new(link, network, transport)`: takes ownership of the
layers without re-validating cross-layer consistency. -/
def Indicator.new (link : Layers) (network transport : Option Layers) :
    Indicator :=
  { link := link, network := network, transport := transport }

/-- `Indicator::get_network_type()`: the classified network layer's type, or
`none` if absent. -/
def Indicator.get_network_type (i : Indicator) : Option LayerTypes :=
  i.network.map Layers.layerType

/-- `Indicator::get_arp()`: the network layer as an ARP layer if that is its
type, else `none`. -/
def Indicator.get_arp (i : Indicator) : Option Arp :=
  match i.network with
  | some (.arp a) => some a
  | _ => none

/-- `Indicator::get_size()`: total size, the sum of present layers' sizes. -/
def Indicator.get_size (i : Indicator) : Nat :=
  i.link.size + (match i.network with | some l => l.size | none => 0)
    + (match i.transport with | some l => l.size | none => 0)

/-- Full wire form of an Indicator: link layer, then network layer, then
transport layer, contiguously. -/
def Indicator.serializeBytes (i : Indicator) : List Nat :=
  i.link.serializeBytes
    ++ (match i.network with | some l => l.serializeBytes | none => [])
    ++ (match i.transport with | some l => l.serializeBytes | none => [])

/-- Modelled from the spec (§4.2): `Indicator::serialize(buffer)` writes the
layers contiguously and fails if the buffer is undersized for the full stack.
The buffer is represented by its length; on success the written bytes are
returned. -/
def Indicator.serialize (i : Indicator) (buflen : Nat) :
    Except String (List Nat) :=
  if buflen < i.get_size then .error "buffer is too small"
  else .ok i.serializeBytes

/-- Modelled from the spec (§4.2): parse of the ARP network layer from the
bytes following the Ethernet header: 28 bytes — hardware/protocol type and
length fields, operation (1 = request, 2 = reply), then the four addresses.
A structurally unrecognizable layer (short buffer, unknown operation) yields
`none`. -/
def parseArp (bs : List Nat) : Option Arp :=
  if bs.length < 28 then none
  else
    let op := 256 * bs.getD 6 0 + bs.getD 7 0
    let sha : MacAddr :=
      ⟨bs.getD 8 0, bs.getD 9 0, bs.getD 10 0, bs.getD 11 0, bs.getD 12 0,
        bs.getD 13 0⟩
    let spa : Ipv4Addr := ⟨bs.getD 14 0, bs.getD 15 0, bs.getD 16 0, bs.getD 17 0⟩
    let tha : MacAddr :=
      ⟨bs.getD 18 0, bs.getD 19 0, bs.getD 20 0, bs.getD 21 0, bs.getD 22 0,
        bs.getD 23 0⟩
    let tpa : Ipv4Addr := ⟨bs.getD 24 0, bs.getD 25 0, bs.getD 26 0, bs.getD 27 0⟩
    if op = 1 then some ⟨.request, sha, spa, tha, tpa⟩
    else if op = 2 then some ⟨.reply, sha, spa, tha, tpa⟩
    else none

/-- Modelled from the spec (§4.2): parse of an IPv4 network layer; the relay
only classifies it, so it is kept as raw bytes (a standard header needs at
least 20 bytes). -/
def parseIpv4 (bs : List Nat) : Option Ipv4 :=
  if bs.length < 20 then none else some ⟨bs⟩

/-- Modelled from the spec (§4.2): `Indicator::parse(raw)` decodes the
Ethernet link layer first; if its protocol tag identifies a supported network
layer the remaining bytes are decoded as that layer; structural mismatch
yields `none`, an unsupported EtherType yields an Indicator with no network
layer. -/
def Indicator.parse (bs : List Nat) : Option Indicator :=
  if bs.length < 14 then none
  else
    let eth : Ethernet :=
      { dst := ⟨bs.getD 0 0, bs.getD 1 0, bs.getD 2 0, bs.getD 3 0,
          bs.getD 4 0, bs.getD 5 0⟩
        src := ⟨bs.getD 6 0, bs.getD 7 0, bs.getD 8 0, bs.getD 9 0,
          bs.getD 10 0, bs.getD 11 0⟩
        ethertype := 256 * bs.getD 12 0 + bs.getD 13 0 }
    let rest := bs.drop 14
    if eth.ethertype = LayerTypes.arp.etherValue then
      match parseArp rest with
      | some a => some (Indicator.new (.ethernet eth) (some (.arp a)) none)
      | none => none
    else if eth.ethertype = LayerTypes.ipv4.etherValue then
      match parseIpv4 rest with
      | some p => some (Indicator.new (.ethernet eth) (some (.ipv4 p)) none)
      | none => none
    else some (Indicator.new (.ethernet eth) none none)

/-- Modelled from the spec (§3): a resolved network interface — name,
hardware address, loopback flag. -/
structure Interface where
  name : String
  hardware_addr : MacAddr
  is_loopback : Bool
deriving DecidableEq, Repr, Inhabited

/-- Translated from `src/lib.rs` (`interfaces`): the available interfaces are
the raw pcap interfaces with loopback interfaces filtered out. The external
`pcap::interfaces()` enumeration is a parameter. -/
def interfaces (raw : List Interface) : List Interface :=
  raw.filter (fun inter => !inter.is_loopback)

/-- Translated from `src/lib.rs` (`interface`): resolve an interface by
optional name, with the source's error cases in order. -/
def interface (raw : List Interface) (name : Option String) :
    Except String Interface :=
  let inters := interfaces raw
  if inters.length = 0 then
    .error "no available interface"
  else if 1 < inters.length ∧ name = none then
    .error "multiple available interfaces"
  else
    match name with
    | some inter_name =>
      let retained := inters.filter (fun current_inter =>
        current_inter.name = inter_name)
      if retained.length = 0 then
        .error ("unknown interface " ++ inter_name)
      else
        .ok (retained.headD default)
    | none => .ok (inters.headD default)

/-- Configuration of `proxy`: the interface, the optional published address,
the source address and the forward destination (IPv4 address and port). -/
structure Config where
  inter : Interface
  publish : Option Ipv4Addr
  src : Ipv4Addr
  dst : Ipv4Addr × Nat
deriving Repr

/-- One receive result from the pcap receiver: a raw frame, or an I/O error
that either is or is not a timeout. -/
inductive RecvEvent where
  | frame (bytes : List Nat)
  | recvErr (timedOut : Bool) (msg : String)
deriving DecidableEq, Repr

/-- Outcome of one iteration of the relay loop: continue with a list of
buffers handed to `send_to`, terminate with a fatal error, or hit an
`unwrap` panic. -/
inductive StepOut where
  | cont (sends : List (List Nat))
  | fatal (msg : String)
  | panicked
deriving DecidableEq, Repr

/-- Number of `send_to` calls recorded by a step outcome. -/
def StepOut.sendCount : StepOut → Nat
  | .cont sends => sends.length
  | _ => 0

/-- Translated from `src/lib.rs` lines 111-124: build the reply Indicator for
an actionable ARP request — role-swapped ARP layer, wrapped in a fresh
Ethernet layer taken from the reply's hardware addresses. `Ethernet::new` is
unwrapped in the source; `none` marks the panic branch. -/
def buildReplyIndicator (hardware_addr : MacAddr) (arp : Arp) :
    Option Indicator :=
  let new_arp := arp.reply hardware_addr
  match Ethernet.new new_arp.get_type new_arp.get_src_hardware_addr
      new_arp.get_dst_hardware_addr with
  | none => none
  | some new_ethernet =>
    some (Indicator.new (.ethernet new_ethernet) (some (.arp new_arp)) none)

/-- Translated from `src/lib.rs` lines 127-154: the serialize-and-send tail
of the ARP branch. A serialization failure drops the frame (`continue`); on
success `send_to` is invoked once and every `send_to` outcome — `some ok`,
`some err`, or `none` — continues the loop. -/
def replyPath (serialized : Except String (List Nat))
    (sendRes : Option (Except String Unit)) : StepOut :=
  match serialized with
  | .error _ => .cont []
  | .ok buffer =>
    match sendRes with
    | some (.ok _) => .cont [buffer]
    | some (.error _) => .cont [buffer]
    | none => .cont [buffer]

/-- Translated from `src/lib.rs` lines 96-175: one iteration of the relay
loop on one receive result. `oracle` supplies the `send_to` return value for
a given buffer. -/
def proxyStep (cfg : Config) (oracle : List Nat → Option (Except String Unit)) :
    RecvEvent → StepOut
  | .recvErr timedOut msg =>
    if timedOut then .cont [] else .fatal ("handle pcap: " ++ msg)
  | .frame bytes =>
    match Indicator.parse bytes with
    | none => .cont []
    | some indicator =>
      match indicator.get_network_type with
      | none => .cont []
      | some t =>
        match t with
        | .arp =>
          match cfg.publish with
          | none => .cont []
          | some publish =>
            match indicator.get_arp with
            | none => .panicked
            | some arp =>
              match arp.is_request_of cfg.src publish with
              | true =>
                match buildReplyIndicator cfg.inter.hardware_addr arp with
                | none => .panicked
                | some new_indicator =>
                  let size := new_indicator.get_size
                  replyPath (new_indicator.serialize size)
                    (oracle new_indicator.serializeBytes)
              | false => .cont []
        | .ipv4 => .cont []
        | .ethernet => .cont []

/-- The relay loop run over a finite trace of receive results: the buffers
handed to `send_to` in order, and `some msg` when the loop returned `Err msg`
(`none` when the trace ended with the loop still running). -/
def proxyRun (cfg : Config)
    (oracle : List Nat → Option (Except String Unit)) :
    List RecvEvent → List (List Nat) × Option String
  | [] => ([], none)
  | ev :: rest =>
    match proxyStep cfg oracle ev with
    | .cont sends =>
      let (laterSends, result) := proxyRun cfg oracle rest
      (sends ++ laterSends, result)
    | .fatal msg => ([], some msg)
    | .panicked => ([], some "panicked")

/-! ### Helper lemmas and concrete scenario values -/

/-- The proxy's MAC address in the spec's concrete scenario. -/
def macAA : MacAddr := ⟨0xAA, 0xAA, 0xAA, 0xAA, 0xAA, 0xAA⟩

/-- The requester's MAC address in the spec's concrete scenario. -/
def macBB : MacAddr := ⟨0xBB, 0xBB, 0xBB, 0xBB, 0xBB, 0xBB⟩

/-- The all-zero MAC address. -/
def macZero : MacAddr := ⟨0, 0, 0, 0, 0, 0⟩

/-- The published address 10.0.0.1 of the concrete scenario. -/
def ipPub : Ipv4Addr := ⟨10, 0, 0, 1⟩

/-- The source address 10.0.0.2 of the concrete scenario. -/
def ipSrc : Ipv4Addr := ⟨10, 0, 0, 2⟩

/-- The inbound ARP request of the concrete scenario. -/
def reqArp : Arp := ⟨.request, macBB, ipSrc, macZero, ipPub⟩

/-- The inbound frame of the concrete scenario: the request from BB broadcast
to FF:FF:FF:FF:FF:FF. -/
def reqInd : Indicator :=
  Indicator.new
    (.ethernet ⟨⟨0xFF, 0xFF, 0xFF, 0xFF, 0xFF, 0xFF⟩, macBB, 0x0806⟩)
    (some (.arp reqArp)) none

/-- The concrete scenario's configuration: interface with MAC AA, published
10.0.0.1, source 10.0.0.2. -/
def cfgScenario : Config :=
  ⟨⟨"eth0", macAA, false⟩, some ipPub, ipSrc, (ipPub, 1080)⟩

/-- A `send_to` oracle that reports success for every buffer. -/
def oracleOk : List Nat → Option (Except String Unit) := fun _ => some (.ok ())

lemma Layers.serializeBytes_length (l : Layers) :
    l.serializeBytes.length = l.size := by
  cases l with
  | ethernet e =>
    simp [Layers.serializeBytes, Layers.size, Ethernet.serializeBytes,
      MacAddr.serializeBytes, serialize16]
  | arp a =>
    simp [Layers.serializeBytes, Layers.size, Arp.serializeBytes,
      MacAddr.serializeBytes, Ipv4Addr.serializeBytes, serialize16]
  | ipv4 p => rfl

lemma Indicator.serializeBytes_size (i : Indicator) :
    i.serializeBytes.length = i.get_size := by
  unfold Indicator.serializeBytes Indicator.get_size
  cases hn : i.network <;> cases ht : i.transport <;>
    simp [Layers.serializeBytes_length] <;> omega

lemma Indicator.serialize_exact (i : Indicator) :
    i.serialize i.get_size = .ok i.serializeBytes := by
  simp [Indicator.serialize]

lemma replyPath_ok (buf : List Nat) (r : Option (Except String Unit)) :
    replyPath (.ok buf) r = .cont [buf] := by
  cases r with
  | none => rfl
  | some x => cases x <;> rfl

lemma buildReplyIndicator_some (hw : MacAddr) (a : Arp) :
    buildReplyIndicator hw a
      = some (Indicator.new (.ethernet ⟨a.src_hardware_addr, hw, 0x0806⟩)
          (some (.arp (a.reply hw))) none) := rfl

lemma Indicator.get_arp_some_iff (i : Indicator) (a : Arp) :
    i.get_arp = some a ↔ i.network = some (.arp a) := by
  unfold Indicator.get_arp
  cases hn : i.network with
  | none => simp
  | some l => cases l <;> simp

lemma Indicator.get_network_type_arp (i : Indicator) :
    i.get_network_type = some .arp ↔ ∃ a, i.network = some (.arp a) := by
  unfold Indicator.get_network_type
  cases hn : i.network with
  | none => simp
  | some l => cases l <;> simp [Layers.layerType]

/-! ### Claim theorems -/

/-- C2: for every ARP request layer with sender hardware address SHA, sender
protocol address SPA and target protocol address TPA, and every hardware
address H, `reply(arp, H)` has operation = reply, sender hardware address = H,
sender protocol address = TPA, target hardware address = SHA, and target
protocol address = SPA. -/
theorem arp_reply_correct (a : Arp) (H : MacAddr)
    (hreq : a.operation = .request) :
    (a.reply H).operation = .reply
    ∧ (a.reply H).src_hardware_addr = H
    ∧ (a.reply H).src_protocol_addr = a.dst_protocol_addr
    ∧ (a.reply H).dst_hardware_addr = a.src_hardware_addr
    ∧ (a.reply H).dst_protocol_addr = a.src_protocol_addr := by
  simp [Arp.reply]

/-- Witness for C2 at the concrete scenario request and proxy MAC. -/
theorem arp_reply_correct_witness :
    (reqArp.reply macAA).operation = .reply
    ∧ (reqArp.reply macAA).src_hardware_addr = macAA
    ∧ (reqArp.reply macAA).src_protocol_addr = reqArp.dst_protocol_addr
    ∧ (reqArp.reply macAA).dst_hardware_addr = reqArp.src_hardware_addr
    ∧ (reqArp.reply macAA).dst_protocol_addr = reqArp.src_protocol_addr :=
  arp_reply_correct reqArp macAA rfl

/-- C3: the Ethernet envelope of every built reply takes its source MAC from
the reply ARP layer's sender hardware address, its destination MAC from the
reply ARP layer's target hardware address, and the ARP protocol tag; in the
concrete scenario (proxy MAC AA:..:AA, requester MAC BB:..:BB) the outbound
frame is Ethernet{src = AA:..:AA, dst = BB:..:BB, type = ARP}. -/
theorem ethernet_envelope_correct (a : Arp) (hw : MacAddr) :
    (∃ e : Ethernet,
      buildReplyIndicator hw a
        = some (Indicator.new (.ethernet e) (some (.arp (a.reply hw))) none)
      ∧ e.src = (a.reply hw).src_hardware_addr
      ∧ e.dst = (a.reply hw).dst_hardware_addr
      ∧ e.ethertype = LayerTypes.arp.etherValue)
    ∧ buildReplyIndicator macAA reqArp
        = some (Indicator.new (.ethernet ⟨macBB, macAA, 0x0806⟩)
            (some (.arp ⟨.reply, macAA, ipPub, macBB, ipSrc⟩)) none)
    ∧ proxyStep cfgScenario oracleOk (.frame reqInd.serializeBytes)
        = .cont [(Indicator.new (.ethernet ⟨macBB, macAA, 0x0806⟩)
            (some (.arp ⟨.reply, macAA, ipPub, macBB, ipSrc⟩))
            none).serializeBytes] := by
  refine ⟨⟨⟨a.src_hardware_addr, hw, 0x0806⟩, rfl, rfl, rfl, rfl⟩, rfl, ?_⟩
  rfl

/-- C4: a non-timeout receive error terminates the loop with a descriptive
error and no further receive or send activity; a timeout receive error
produces no transmit and the loop proceeds to the next receive. -/
theorem recv_error_handling (cfg : Config)
    (oracle : List Nat → Option (Except String Unit)) (msg : String)
    (rest : List RecvEvent) :
    proxyRun cfg oracle (.recvErr false msg :: rest)
      = ([], some ("handle pcap: " ++ msg))
    ∧ proxyStep cfg oracle (.recvErr true msg) = .cont []
    ∧ proxyRun cfg oracle (.recvErr true msg :: rest)
      = proxyRun cfg oracle rest := by
  refine ⟨rfl, rfl, ?_⟩
  simp [proxyRun, proxyStep]

lemma proxyStep_frame_cont (cfg : Config)
    (oracle : List Nat → Option (Except String Unit)) (bytes : List Nat) :
    ∃ sends, proxyStep cfg oracle (.frame bytes) = .cont sends := by
  cases hp : Indicator.parse bytes with
  | none => exact ⟨[], by simp [proxyStep, hp]⟩
  | some ind =>
    cases hnt : ind.get_network_type with
    | none => exact ⟨[], by simp [proxyStep, hp, hnt]⟩
    | some t =>
      cases t with
      | ethernet => exact ⟨[], by simp [proxyStep, hp, hnt]⟩
      | ipv4 => exact ⟨[], by simp [proxyStep, hp, hnt]⟩
      | arp =>
        cases hpub : cfg.publish with
        | none => exact ⟨[], by simp [proxyStep, hp, hnt, hpub]⟩
        | some p =>
          obtain ⟨a, hn⟩ := (Indicator.get_network_type_arp ind).mp hnt
          have harp : ind.get_arp = some a :=
            (Indicator.get_arp_some_iff ind a).mpr hn
          cases hreq : a.is_request_of cfg.src p with
          | false => exact ⟨[], by simp [proxyStep, hp, hnt, hpub, harp, hreq]⟩
          | true =>
            refine ⟨[(Indicator.new
              (.ethernet ⟨a.src_hardware_addr, cfg.inter.hardware_addr, 0x0806⟩)
              (some (.arp (a.reply cfg.inter.hardware_addr)))
              none).serializeBytes], ?_⟩
            simp [proxyStep, hp, hnt, hpub, harp, hreq,
              buildReplyIndicator_some, Indicator.serialize_exact,
              replyPath_ok]

/-- C5: failures on the reply path are non-fatal — a serialization failure
drops the frame with zero sends, every `send_to` outcome (success, error, or
`none` for "no send attempted") continues, and a received frame never makes
the loop return: the run over the remaining trace proceeds unchanged. -/
theorem reply_path_nonfatal (e : String) (buf : List Nat)
    (sendRes : Option (Except String Unit)) (cfg : Config)
    (oracle : List Nat → Option (Except String Unit)) (bytes : List Nat)
    (rest : List RecvEvent) :
    replyPath (.error e) sendRes = .cont []
    ∧ replyPath (.ok buf) sendRes = .cont [buf]
    ∧ ∃ sends, proxyStep cfg oracle (.frame bytes) = .cont sends
        ∧ proxyRun cfg oracle (.frame bytes :: rest)
            = (sends ++ (proxyRun cfg oracle rest).1,
               (proxyRun cfg oracle rest).2) := by
  refine ⟨rfl, replyPath_ok buf sendRes, ?_⟩
  obtain ⟨sends, hs⟩ := proxyStep_frame_cont cfg oracle bytes
  exact ⟨sends, hs, by simp [proxyRun, hs]⟩

/-- C9: the `unwrap` of `get_arp` in the ARP branch is safe: whenever an
Indicator's classified network type is ARP, `get_arp` is `some`; and no step
of the relay loop ever reaches a panic. -/
theorem arp_unwrap_safe (ind : Indicator) :
    (ind.get_network_type = some .arp → ind.get_arp.isSome)
    ∧ ∀ (cfg : Config) (oracle : List Nat → Option (Except String Unit))
        (ev : RecvEvent), proxyStep cfg oracle ev ≠ .panicked := by
  constructor
  · intro h
    obtain ⟨a, hn⟩ := (Indicator.get_network_type_arp ind).mp h
    simp [(Indicator.get_arp_some_iff ind a).mpr hn]
  · intro cfg oracle ev
    cases ev with
    | frame bytes =>
      obtain ⟨sends, hs⟩ := proxyStep_frame_cont cfg oracle bytes
      simp [hs]
    | recvErr timedOut msg => cases timedOut <;> simp [proxyStep]

/-- Witness for C9 at the concrete scenario frame's Indicator. -/
theorem arp_unwrap_safe_witness : reqInd.get_arp.isSome :=
  (arp_unwrap_safe reqInd).1 rfl

/-- C7: a frame that fails to parse, parses with no classified network layer,
or classifies to a recognized non-ARP type produces zero transmits, and a
continuing step just moves the loop to the next receive — never a fatal
condition. `Indicator.parse` returns an `Option`, so malformed frames yield
`none`, not an error. -/
theorem unsupported_frame_drop (cfg : Config)
    (oracle : List Nat → Option (Except String Unit)) (bytes : List Nat)
    (rest : List RecvEvent) :
    (Indicator.parse bytes = none → proxyStep cfg oracle (.frame bytes) = .cont [])
    ∧ (∀ ind, Indicator.parse bytes = some ind → ind.get_network_type = none →
        proxyStep cfg oracle (.frame bytes) = .cont [])
    ∧ (∀ ind t, Indicator.parse bytes = some ind →
        ind.get_network_type = some t → t ≠ .arp →
        proxyStep cfg oracle (.frame bytes) = .cont [])
    ∧ (∀ sends, proxyStep cfg oracle (.frame bytes) = .cont sends →
        proxyRun cfg oracle (.frame bytes :: rest)
          = (sends ++ (proxyRun cfg oracle rest).1,
             (proxyRun cfg oracle rest).2)) := by
  refine ⟨fun h => by simp [proxyStep, h],
    fun ind h1 h2 => by simp [proxyStep, h1, h2],
    fun ind t h1 h2 h3 => ?_,
    fun sends h => by simp [proxyRun, h]⟩
  cases t with
  | ethernet => simp [proxyStep, h1, h2]
  | ipv4 => simp [proxyStep, h1, h2]
  | arp => exact absurd rfl h3

/-- Witness for C7: the empty frame does not parse and is dropped. -/
theorem unsupported_frame_drop_witness :
    proxyStep cfgScenario oracleOk (.frame []) = .cont [] :=
  (unsupported_frame_drop cfgScenario oracleOk [] []).1 rfl

/-- C1: impersonation gating. With `published = some P` and source `S`, a
parsed ARP request with sender protocol address S and target protocol address
P triggers exactly one `send_to` of the serialized reply; a request with a
different sender or target triggers none; a non-request ARP layer triggers
none; and with `published = none` no ARP frame triggers any. -/
theorem arp_impersonation_gating (inter : Interface) (S P : Ipv4Addr)
    (dst : Ipv4Addr × Nat) (oracle : List Nat → Option (Except String Unit))
    (bytes : List Nat) (ind : Indicator) (a : Arp)
    (hparse : Indicator.parse bytes = some ind)
    (harp : ind.get_arp = some a) :
    ((a.operation = .request ∧ a.src_protocol_addr = S ∧ a.dst_protocol_addr = P) →
      ∃ rep, buildReplyIndicator inter.hardware_addr a = some rep
        ∧ proxyStep ⟨inter, some P, S, dst⟩ oracle (.frame bytes)
            = .cont [rep.serializeBytes])
    ∧ ((a.src_protocol_addr ≠ S ∨ a.dst_protocol_addr ≠ P) →
      proxyStep ⟨inter, some P, S, dst⟩ oracle (.frame bytes) = .cont [])
    ∧ (a.operation ≠ .request →
      proxyStep ⟨inter, some P, S, dst⟩ oracle (.frame bytes) = .cont [])
    ∧ proxyStep ⟨inter, none, S, dst⟩ oracle (.frame bytes) = .cont [] := by
  have hn : ind.network = some (.arp a) := (Indicator.get_arp_some_iff ind a).mp harp
  have hnt : ind.get_network_type = some .arp :=
    (Indicator.get_network_type_arp ind).mpr ⟨a, hn⟩
  refine ⟨?_, ?_, ?_, ?_⟩
  · rintro ⟨h1, h2, h3⟩
    have hreq : a.is_request_of S P = true := by
      simp [Arp.is_request_of, h1, h2, h3]
    exact ⟨_, buildReplyIndicator_some inter.hardware_addr a, by
      simp [proxyStep, hparse, hnt, harp, hreq, buildReplyIndicator_some,
        Indicator.serialize_exact, replyPath_ok]⟩
  · intro h
    have hreq : a.is_request_of S P = false := by
      rcases h with h | h <;> simp [Arp.is_request_of, h]
    simp [proxyStep, hparse, hnt, harp, hreq]
  · intro h
    have hreq : a.is_request_of S P = false := by
      simp [Arp.is_request_of, h]
    simp [proxyStep, hparse, hnt, harp, hreq]
  · simp [proxyStep, hparse, hnt]

/-- Witness for C1: the concrete scenario frame triggers exactly one send of
the serialized reply. -/
theorem arp_impersonation_gating_witness :
    ∃ rep, buildReplyIndicator macAA reqArp = some rep
      ∧ proxyStep ⟨⟨"eth0", macAA, false⟩, some ipPub, ipSrc, (ipPub, 1080)⟩
          oracleOk (.frame reqInd.serializeBytes) = .cont [rep.serializeBytes] :=
  (arp_impersonation_gating ⟨"eth0", macAA, false⟩ ipSrc ipPub (ipPub, 1080)
      oracleOk reqInd.serializeBytes reqInd reqArp (by decide) (by decide)).1
    ⟨rfl, rfl, rfl⟩

/-- All six bytes of a MAC address are in byte range. -/
def MacAddr.Valid (m : MacAddr) : Prop :=
  m.b0 < 256 ∧ m.b1 < 256 ∧ m.b2 < 256 ∧ m.b3 < 256 ∧ m.b4 < 256 ∧ m.b5 < 256

instance (m : MacAddr) : Decidable m.Valid := by
  unfold MacAddr.Valid; infer_instance

/-- All four octets of an IPv4 address are in byte range. -/
def Ipv4Addr.Valid (ip : Ipv4Addr) : Prop :=
  ip.o0 < 256 ∧ ip.o1 < 256 ∧ ip.o2 < 256 ∧ ip.o3 < 256

instance (ip : Ipv4Addr) : Decidable ip.Valid := by
  unfold Ipv4Addr.Valid; infer_instance

/-- All address fields of an ARP layer are in byte range. -/
def Arp.Valid (a : Arp) : Prop :=
  a.src_hardware_addr.Valid ∧ a.src_protocol_addr.Valid
    ∧ a.dst_hardware_addr.Valid ∧ a.dst_protocol_addr.Valid

instance (a : Arp) : Decidable a.Valid := by
  unfold Arp.Valid; infer_instance

/-- C6: serialize-parse round trip. An Indicator built from an Ethernet layer
tagged ARP and a valid ARP layer serializes successfully into a buffer of
exactly `get_size()` bytes, and parsing those bytes back returns the very same
Indicator — identical layer field values, hence identical `get_size()`. -/
theorem serialize_parse_roundtrip (eth : Ethernet) (a : Arp)
    (hdst : eth.dst.Valid) (hsrc : eth.src.Valid)
    (htag : eth.ethertype = LayerTypes.arp.etherValue) (ha : a.Valid) :
    (Indicator.new (.ethernet eth) (some (.arp a)) none).serialize
        (Indicator.new (.ethernet eth) (some (.arp a)) none).get_size
      = .ok (Indicator.new (.ethernet eth) (some (.arp a)) none).serializeBytes
    ∧ (Indicator.new (.ethernet eth) (some (.arp a)) none).serializeBytes.length
      = (Indicator.new (.ethernet eth) (some (.arp a)) none).get_size
    ∧ Indicator.parse
        (Indicator.new (.ethernet eth) (some (.arp a)) none).serializeBytes
      = some (Indicator.new (.ethernet eth) (some (.arp a)) none) := by
  refine ⟨Indicator.serialize_exact _, Indicator.serializeBytes_size _, ?_⟩
  obtain ⟨⟨d0, d1, d2, d3, d4, d5⟩, ⟨s0, s1, s2, s3, s4, s5⟩, et⟩ := eth
  obtain ⟨op, ⟨h0, h1, h2, h3, h4, h5⟩, ⟨p0, p1, p2, p3⟩,
    ⟨g0, g1, g2, g3, g4, g5⟩, ⟨q0, q1, q2, q3⟩⟩ := a
  simp only [LayerTypes.etherValue] at htag
  subst htag
  obtain ⟨hd0, hd1, hd2, hd3, hd4, hd5⟩ := hdst
  obtain ⟨hs0, hs1, hs2, hs3, hs4, hs5⟩ := hsrc
  obtain ⟨⟨hh0, hh1, hh2, hh3, hh4, hh5⟩, ⟨hp0, hp1, hp2, hp3⟩,
    ⟨hg0, hg1, hg2, hg3, hg4, hg5⟩, ⟨hq0, hq1, hq2, hq3⟩⟩ := ha
  simp only [Indicator.new, Indicator.serializeBytes, Layers.serializeBytes,
    Ethernet.serializeBytes, Arp.serializeBytes, MacAddr.serializeBytes,
    Ipv4Addr.serializeBytes, serialize16] at hd0 ⊢
  simp only [Nat.mod_eq_of_lt hd0, Nat.mod_eq_of_lt hd1, Nat.mod_eq_of_lt hd2,
    Nat.mod_eq_of_lt hd3, Nat.mod_eq_of_lt hd4, Nat.mod_eq_of_lt hd5,
    Nat.mod_eq_of_lt hs0, Nat.mod_eq_of_lt hs1, Nat.mod_eq_of_lt hs2,
    Nat.mod_eq_of_lt hs3, Nat.mod_eq_of_lt hs4, Nat.mod_eq_of_lt hs5,
    Nat.mod_eq_of_lt hh0, Nat.mod_eq_of_lt hh1, Nat.mod_eq_of_lt hh2,
    Nat.mod_eq_of_lt hh3, Nat.mod_eq_of_lt hh4, Nat.mod_eq_of_lt hh5,
    Nat.mod_eq_of_lt hp0, Nat.mod_eq_of_lt hp1, Nat.mod_eq_of_lt hp2,
    Nat.mod_eq_of_lt hp3,
    Nat.mod_eq_of_lt hg0, Nat.mod_eq_of_lt hg1, Nat.mod_eq_of_lt hg2,
    Nat.mod_eq_of_lt hg3, Nat.mod_eq_of_lt hg4, Nat.mod_eq_of_lt hg5,
    Nat.mod_eq_of_lt hq0, Nat.mod_eq_of_lt hq1, Nat.mod_eq_of_lt hq2,
    Nat.mod_eq_of_lt hq3]
  cases op <;>
    simp [Indicator.parse, parseArp, Indicator.new, List.getD,
      ArpOperation.value, LayerTypes.etherValue]

/-- Witness for C6 at the concrete scenario frame. -/
theorem serialize_parse_roundtrip_witness :
    reqInd.serialize reqInd.get_size = .ok reqInd.serializeBytes
    ∧ reqInd.serializeBytes.length = reqInd.get_size
    ∧ Indicator.parse reqInd.serializeBytes = some reqInd :=
  serialize_parse_roundtrip ⟨⟨0xFF, 0xFF, 0xFF, 0xFF, 0xFF, 0xFF⟩, macBB, 0x0806⟩
    reqArp (by decide) (by decide) (by decide) (by decide)

lemma headD_mem {α : Type} {l : List α} (h : l.length ≠ 0) (d : α) :
    l.headD d ∈ l := by
  cases l with
  | nil => simp at h
  | cons x xs => simp [List.headD]

/-- C8: `interface(name)` errs exactly when no non-loopback interface is
available, when several are available and no name was given, or when a name
was given and no available interface bears it; otherwise it returns `Ok` with
the first remaining match. -/
theorem interface_resolution (raw : List Interface) (name : Option String) :
    ((∃ e, interface raw name = .error e) ↔
      (interfaces raw = []
        ∨ (1 < (interfaces raw).length ∧ name = none)
        ∨ (∃ n, name = some n
            ∧ (interfaces raw).filter (fun j => j.name = n) = [])))
    ∧ (∀ i, interface raw name = .ok i →
        (name = none → i = (interfaces raw).headD default)
        ∧ (∀ n, name = some n →
            i = ((interfaces raw).filter (fun j => j.name = n)).headD default)) := by
  cases name with
  | none =>
    constructor
    · constructor
      · rintro ⟨e, he⟩
        unfold interface at he
        simp only at he
        split_ifs at he with h0 h1
        · exact Or.inl (List.length_eq_zero.mp h0)
        · exact Or.inr (Or.inl ⟨h1.1, rfl⟩)
      · intro h
        rcases h with h | ⟨hlen, -⟩ | ⟨n, hn, -⟩
        · exact ⟨"no available interface", by unfold interface; simp [h]⟩
        · refine ⟨"multiple available interfaces", ?_⟩
          have h0 : ¬(interfaces raw).length = 0 := by omega
          unfold interface
          simp [h0, hlen]
        · cases hn
    · intro i hi
      refine ⟨fun _ => ?_, fun n hn => Option.noConfusion hn⟩
      unfold interface at hi
      simp only at hi
      split_ifs at hi with h0 h1
      exact (Except.ok.inj hi).symm
  | some n =>
    constructor
    · constructor
      · rintro ⟨e, he⟩
        unfold interface at he
        simp only at he
        split_ifs at he with h0 h1 h2
        · exact Or.inl (List.length_eq_zero.mp h0)
        · exact h1.2.elim
        · exact Or.inr (Or.inr ⟨n, rfl, List.length_eq_zero.mp h2⟩)
      · intro h
        rcases h with h | ⟨-, hn⟩ | ⟨m, hm, hfil⟩
        · exact ⟨"no available interface", by unfold interface; simp [h]⟩
        · cases hn
        · cases hm
          by_cases h0 : (interfaces raw).length = 0
          · exact ⟨"no available interface", by unfold interface; simp [h0]⟩
          · refine ⟨"unknown interface " ++ n, ?_⟩
            unfold interface
            simp [h0, hfil]
    · intro i hi
      refine ⟨fun hn => Option.noConfusion hn, fun m hm => ?_⟩
      cases hm
      unfold interface at hi
      simp only at hi
      split_ifs at hi with h0 h1 h2
      exact (Except.ok.inj hi).symm

/-- Witness for C8: with no interfaces at all, resolution errs. -/
theorem interface_resolution_witness :
    ∃ e, interface ([] : List Interface) none = .error e :=
  (interface_resolution [] none).1.mpr (Or.inl rfl)

/-- C10: every interface listed by `interfaces()` is non-loopback, and
consequently `interface(name)` never returns a loopback interface. -/
theorem interfaces_not_loopback (raw : List Interface) (name : Option String)
    (i : Interface) :
    (∀ j, j ∈ interfaces raw → j.is_loopback = false)
    ∧ (interface raw name = .ok i → i.is_loopback = false) := by
  have hmem : ∀ j, j ∈ interfaces raw → j.is_loopback = false := by
    intro j hj
    have := List.of_mem_filter hj
    simpa using this
  refine ⟨hmem, fun hi => ?_⟩
  cases name with
  | none =>
    unfold interface at hi
    simp only at hi
    split_ifs at hi with h0 h1
    exact (Except.ok.inj hi) ▸ hmem _ (headD_mem h0 default)
  | some n =>
    unfold interface at hi
    simp only at hi
    split_ifs at hi with h0 h1 h2
    exact (Except.ok.inj hi) ▸ hmem _ (List.mem_of_mem_filter (headD_mem h2 default))

/-- Witness for C10: a singleton non-loopback list resolves to a non-loopback
interface. -/
theorem interfaces_not_loopback_witness :
    (⟨"eth0", macAA, false⟩ : Interface).is_loopback = false :=
  (interfaces_not_loopback [⟨"eth0", macAA, false⟩] none
    ⟨"eth0", macAA, false⟩).2 rfl
